import Mathlib

/-!
Shallow embedding of the RAG chatbot service core of this repository:
`chatbot/chatbot_service_sse.py` (streaming delivery, request validation,
warm-up), `chatbot/routing/route_rules.py` (intent-to-pipeline routing) and
`chatbot/retrieval/retriever.py` (similarity-search retrieval and Q&A
ingestion), with the constants of `chatbot/config/settings.py`.

Python strings are modelled as lists of unicode code points (`PyStr`).
External collaborators that are opaque to this core (the embedding model,
the vector store client, the orchestrator `RAGChatbot` from `main.py`, the
query processor) are modelled as `Except`-valued parameters: an `Except.error`
outcome models a raised exception, `Except.ok` a normal return.
-/

/-- Python strings as sequences of unicode code points. -/
abbrev PyStr := List Char

/-- Embed a Lean string literal as a `PyStr`. -/
def pyOf (s : String) : PyStr := s.data

/-- The whitespace test used by Python `str.strip`. -/
def ws (c : Char) : Bool := c.isWhitespace

/-- Python `str.strip()`: drop whitespace from both ends. -/
def pyStrip (s : PyStr) : PyStr := ((s.dropWhile ws).reverse.dropWhile ws).reverse

/-- Python `str.rstrip()`: drop trailing whitespace. -/
def pyRStrip (s : PyStr) : PyStr := (s.reverse.dropWhile ws).reverse

/-- Python `str.replace(pat, rep)` specialized to the two-character patterns
`chunk_text` uses: replace every non-overlapping occurrence of `[p1, p2]` by
`[r1, r2]`, scanning left to right. -/
def pyReplace2 (p1 p2 r1 r2 : Char) : PyStr → PyStr
  | [] => []
  | [c] => [c]
  | c :: d :: rest =>
    if c == p1 && d == p2 then r1 :: r2 :: pyReplace2 p1 p2 r1 r2 rest
    else c :: pyReplace2 p1 p2 r1 r2 (d :: rest)

/-- Python `str.split(sep)` for a single-character separator: split on every
occurrence, keeping empty pieces; splitting the empty string yields one empty
piece. -/
def pySplitChar (sep : Char) : PyStr → List PyStr
  | [] => [[]]
  | c :: rest =>
    let r := pySplitChar sep rest
    if c == sep then [] :: r
    else
      match r with
      | [] => [[c]]
      | p :: ps => (c :: p) :: ps

/-- The sentence list computed by `chunk_text` in `chatbot_service_sse.py`:
`text.replace('? ', '?|').replace('! ', '!|').replace('. ', '.|').split('|')`. -/
def chunk_sentences (text : PyStr) : List PyStr :=
  pySplitChar '|'
    (pyReplace2 '.' ' ' '.' '|'
      (pyReplace2 '!' ' ' '!' '|'
        (pyReplace2 '?' ' ' '?' '|' text)))

/-- The accumulation loop of `chunk_text`: strip each sentence, skip empty
ones, pack sentences into `current` while they fit, yield `current` (with its
trailing space) when the next sentence would overflow, and finally yield the
stripped remainder if non-empty. -/
def chunkLoop (chunk_size : Nat) : List PyStr → PyStr → List PyStr
  | [], current => if pyStrip current = [] then [] else [pyStrip current]
  | s :: rest, current =>
    let t := pyStrip s
    if t = [] then chunkLoop chunk_size rest current
    else if current ≠ [] ∧ chunk_size < current.length + t.length then
      current :: chunkLoop chunk_size rest (t ++ [' '])
    else chunkLoop chunk_size rest (current ++ t ++ [' '])

/-- `chunk_text(text, chunk_size)` from `chatbot_service_sse.py`: the list of
chunks the generator yields (empty for falsy input text). -/
def chunk_text (text : PyStr) (chunk_size : Nat) : List PyStr :=
  if text = [] then [] else chunkLoop chunk_size (chunk_sentences text) []

/-- The tagged SSE events emitted by the streaming path. -/
inductive SSEEvent where
  | start : SSEEvent
  | chunk : PyStr → SSEEvent
  | done : SSEEvent
  | error : PyStr → SSEEvent
  deriving DecidableEq, Repr

/-- `generate_sse_response` from `chatbot_service_sse.py` as the list of events
the generator yields.  `initResult` is the outcome of `initialize_chatbot()`
(construction of the external `RAGChatbot`), `queryResult` the outcome of
`bot.query(...)`; an exception at either point is caught by the `except`
clause, which yields a single error event and ends the generator.  The chunk
budget is the hardcoded `chunk_size=30`. -/
def generate_sse_response (initResult : Except PyStr Unit)
    (queryResult : Except PyStr PyStr) : List SSEEvent :=
  match initResult with
  | .error e => [SSEEvent.error e]
  | .ok _ =>
    match queryResult with
    | .error e => [SSEEvent.start, SSEEvent.error e]
    | .ok full_response =>
      SSEEvent.start :: (chunk_text full_response 30).map SSEEvent.chunk ++ [SSEEvent.done]

/-- Recognizer for start events. -/
def isStart : SSEEvent → Bool
  | SSEEvent.start => true
  | _ => false

/-- Recognizer for terminal events (done or error). -/
def isTerminal : SSEEvent → Bool
  | SSEEvent.done => true
  | SSEEvent.error _ => true
  | _ => false

/-- The content carried by a chunk event. -/
def contentOf : SSEEvent → Option PyStr
  | SSEEvent.chunk c => some c
  | _ => none

/-- Number of start events in a stream. -/
def countStart (evts : List SSEEvent) : Nat := (evts.filter isStart).length

/-- Concatenation of the contents of all chunk events of a stream. -/
def chunkConcat (evts : List SSEEvent) : PyStr := (evts.filterMap contentOf).flatten

/-- Is an `Except` outcome a normal return? -/
def exOk {ε α : Type} : Except ε α → Bool
  | Except.ok _ => true
  | Except.error _ => false

/-- Intent constant from `config/settings.py` / `IntentRouter`. -/
def COMPANY_INTERNSHIP : PyStr := pyOf ("COMPANY_INTERNSHIP")

/-- Intent constant from `config/settings.py` / `IntentRouter`. -/
def EDUCATION_CODING : PyStr := pyOf ("EDUCATION_CODING")

/-- Intent constant from `config/settings.py` / `IntentRouter`. -/
def INTERVIEW_PREPARATION : PyStr := pyOf ("INTERVIEW_PREPARATION")

/-- Intent constant from `config/settings.py` / `IntentRouter`. -/
def GENERAL_EDUCATION : PyStr := pyOf ("GENERAL_EDUCATION")

/-- `RouteRules.rag_intents` from `routing/route_rules.py`. -/
def rag_intents : List PyStr := [COMPANY_INTERNSHIP]

/-- `RouteRules.external_intents` from `routing/route_rules.py`. -/
def external_intents : List PyStr := [EDUCATION_CODING, INTERVIEW_PREPARATION, GENERAL_EDUCATION]

/-- `RouteRules.should_use_rag`: membership of the intent in the RAG set. -/
def should_use_rag (intent : PyStr) : Bool := rag_intents.contains intent

/-- `RouteRules.should_use_external`: membership in the EXTERNAL set. -/
def should_use_external (intent : PyStr) : Bool := external_intents.contains intent

/-- `RouteRules.get_pipeline_for_intent` from `routing/route_rules.py`. -/
def get_pipeline_for_intent (intent : PyStr) : PyStr :=
  if should_use_rag intent then pyOf ("RAG")
  else if should_use_external intent then pyOf ("EXTERNAL")
  else pyOf ("UNKNOWN")

/-- The `"pipeline"` field of the dictionary returned by `RouteRules.route_query`,
as a function of the classified intent: the source computes it as
`"RAG" if use_rag else "EXTERNAL"`. -/
def route_query_pipeline (intent : PyStr) : PyStr :=
  if should_use_rag intent then pyOf ("RAG") else pyOf ("EXTERNAL")

/-- A Qdrant search hit: its payload (the spec models payload values as
strings) and its similarity score, of opaque type `S` (scores are never
inspected by this core). -/
structure SearchHit (S : Type) where
  payload : List (PyStr × PyStr)
  score : S
  deriving DecidableEq, Repr

/-- A retrieved document as assembled by `Retriever.retrieve`. -/
structure RetrievedDoc (S : Type) where
  content : PyStr
  metadata : List (PyStr × PyStr)
  similarity_score : S
  deriving DecidableEq, Repr

/-- Python `payload.pop('content', '')` on a payload dictionary: the popped
content value (defaulting to the empty string) and the remaining payload. -/
def popContent (payload : List (PyStr × PyStr)) : PyStr × List (PyStr × PyStr) :=
  match payload.lookup (pyOf ("content")) with
  | some v => (v, payload.filter (fun kv => !(kv.fst == pyOf ("content"))))
  | none => ([], payload)

/-- The per-hit formatting step of `Retriever.retrieve`. -/
def hitToDoc {S : Type} (hit : SearchHit S) : RetrievedDoc S :=
  let cm := popContent hit.payload
  { content := cm.fst, metadata := cm.snd, similarity_score := hit.score }

/-- `Retriever.retrieve` from `retrieval/retriever.py`.  `processQ` is the
external `QueryProcessor.process_query` returning the pair
`(normalized, keyword_query)`; `embed` the external embedding generator of
opaque vector type `E`; `search` the external `client.query_points` call,
receiving the embedding, the limit `k`, and the optional filter built from
`filter_by`.  All three run inside the `try` block; a raised exception in any
of them (an `Except.error`) is caught and yields the empty list. -/
def retrieve {E S : Type} (query : PyStr) (top_k : Option Nat)
    (filter_by : Option (List (PyStr × PyStr))) (self_top_k : Nat)
    (processQ : PyStr → Except PyStr (PyStr × PyStr))
    (embed : PyStr → Except PyStr E)
    (search : E → Nat → Option (List (PyStr × PyStr)) → Except PyStr (List (SearchHit S))) :
    List (RetrievedDoc S) :=
  if query = [] then []
  else
    let k := match top_k with
      | some t => t
      | none => self_top_k
    match processQ query with
    | .error _ => []
    | .ok nk =>
      let search_query := if nk.snd ≠ [] then nk.snd else nk.fst
      match embed search_query with
      | .error _ => []
      | .ok emb =>
        let query_filter : Option (List (PyStr × PyStr)) :=
          match filter_by with
          | none => none
          | some fb => if fb = [] then none else some fb
        match search emb k query_filter with
        | .error _ => []
        | .ok hits => hits.map hitToDoc

/-- Some step inside the `try` block of `Retriever.retrieve` raises: the query
processor, the embedding of the selected search text, or the vector search
at the effective limit and filter. -/
def retrieveStepFails {E S : Type} (query : PyStr) (top_k : Option Nat)
    (filter_by : Option (List (PyStr × PyStr))) (self_top_k : Nat)
    (processQ : PyStr → Except PyStr (PyStr × PyStr))
    (embed : PyStr → Except PyStr E)
    (search : E → Nat → Option (List (PyStr × PyStr)) → Except PyStr (List (SearchHit S))) :
    Prop :=
  (∃ e, processQ query = Except.error e) ∨
  (∃ nk e, processQ query = Except.ok nk ∧
     embed (if nk.snd ≠ [] then nk.snd else nk.fst) = Except.error e) ∨
  (∃ nk emb e, processQ query = Except.ok nk ∧
     embed (if nk.snd ≠ [] then nk.snd else nk.fst) = Except.ok emb ∧
     search emb
       (match top_k with
        | some t => t
        | none => self_top_k)
       (match filter_by with
        | none => none
        | some fb => if fb = [] then none else some fb) = Except.error e)

/-- The point upserted by `Retriever.ingest_qa_pair` (a Qdrant `PointStruct`):
id, vector, payload. -/
structure QAPoint (E : Type) where
  id : PyStr
  vector : E
  payload : List (PyStr × PyStr)
  deriving DecidableEq, Repr

/-- The content string built by `ingest_qa_pair`:
`f"Question: {question}\n\nAnswer: {answer}"`. -/
def qa_content (question answer : PyStr) : PyStr :=
  pyOf ("Question: ") ++ question ++ pyOf ("\n\nAnswer: ") ++ answer

/-- The metadata dictionary built by `ingest_qa_pair`. -/
def qa_metadata (question answer : PyStr) : List (PyStr × PyStr) :=
  [(pyOf ("document_type"), pyOf ("Generated Q&A")),
   (pyOf ("company"), pyOf ("General Knowledge")),
   (pyOf ("source"), pyOf ("Gemini LLM")),
   (pyOf ("question"), question),
   (pyOf ("answer"), answer)]

/-- The `PointStruct` built by `ingest_qa_pair`: payload
`{"content": content, **metadata}`; `nid` is the fresh `uuid.uuid4()` string. -/
def qa_point {E : Type} (question answer nid : PyStr) (emb : E) : QAPoint E :=
  { id := nid, vector := emb,
    payload := (pyOf ("content"), qa_content question answer) :: qa_metadata question answer }

/-- `Retriever.ingest_qa_pair` from `retrieval/retriever.py`.  `embed` is the
external embedding generator, `upsert` the external `client.upsert` call on
the constructed point; both run in the `try` block whose `except` clause
returns `False`. -/
def ingest_qa_pair {E : Type} (question answer nid : PyStr)
    (embed : PyStr → Except PyStr E)
    (upsert : QAPoint E → Except PyStr Unit) : Bool :=
  if question = [] ∨ answer = [] then false
  else
    match embed question with
    | .error _ => false
    | .ok emb =>
      match upsert (qa_point question answer nid emb) with
      | .error _ => false
      | .ok _ => true

/-- The JSON body of a POST /query request: each field is absent (`none`) or
present with a string value, as read by `data.get(...)`. -/
structure QueryRequest where
  user_id : Option PyStr
  session_id : Option PyStr
  query : Option PyStr
  deriving DecidableEq, Repr

/-- The observable HTTP response of the /query handler: 200 with
`{success, response, sessionId}`, 400 with `{error}`, or 500 with `{error}`. -/
inductive HttpResponse where
  | ok : PyStr → PyStr → HttpResponse
  | badRequest : PyStr → HttpResponse
  | serverError : PyStr → HttpResponse
  deriving DecidableEq, Repr

/-- Python truthiness test `not x` for an optional string field: true when the
field is absent or the empty string. -/
def pyFalsy : Option PyStr → Bool
  | none => true
  | some s => s.isEmpty

/-- The POST /query handler (`query()` in `chatbot_service_sse.py`).  `initR`
is the outcome of `initialize_chatbot()`, `botQuery` the outcome of
`bot.query(query_text, user_id, session_id)`; both run inside the `try` whose
`except` clause returns 500 with the error message. -/
def query_handler (req : QueryRequest) (initR : Except PyStr Unit)
    (botQuery : PyStr → PyStr → PyStr → Except PyStr PyStr) : HttpResponse :=
  if pyFalsy req.user_id || pyFalsy req.session_id then
    HttpResponse.badRequest (pyOf ("user_id and session_id are required"))
  else if pyFalsy req.query || (pyStrip (req.query.getD [])).isEmpty then
    HttpResponse.badRequest (pyOf ("query is required"))
  else
    match initR with
    | .error e => HttpResponse.serverError e
    | .ok _ =>
      match botQuery (req.query.getD []) (req.user_id.getD []) (req.session_id.getD []) with
      | .error e => HttpResponse.serverError e
      | .ok resp => HttpResponse.ok resp (req.session_id.getD [])

/-- Observable outcome of one `pre_warm_pipeline` invocation: the value of the
global `is_warmed_up` flag afterwards, and how many times the underlying
`embedder.encode` and `retriever.retrieve` calls were made during it. -/
structure WarmResult where
  is_warmed_up : Bool
  embed_calls : Nat
  retrieve_calls : Nat
  deriving DecidableEq, Repr

/-- The module-level initial value of the `is_warmed_up` global. -/
def is_warmed_up_initial : Bool := false

/-- `pre_warm_pipeline` from `chatbot_service_sse.py`, as a function of the
current `is_warmed_up` flag and of the outcomes of the two warm-up calls
(`bot.retriever.embedder.encode(...)` then `bot.retriever.retrieve(...)`),
which run in a `try` whose `except` clause only logs: if the flag is already
set the routine returns at once making no calls; otherwise `encode` runs, and
only if it returns does `retrieve` run; the flag is set to true only after
both returned. -/
def pre_warm_pipeline (is_warmed_up : Bool) (encodeR : Except PyStr Unit)
    (retrieveR : Except PyStr Unit) : WarmResult :=
  if is_warmed_up then { is_warmed_up := true, embed_calls := 0, retrieve_calls := 0 }
  else
    match encodeR with
    | .error _ => { is_warmed_up := false, embed_calls := 1, retrieve_calls := 0 }
    | .ok _ =>
      match retrieveR with
      | .error _ => { is_warmed_up := false, embed_calls := 1, retrieve_calls := 1 }
      | .ok _ => { is_warmed_up := true, embed_calls := 1, retrieve_calls := 1 }

/-- Specification vocabulary: the trimmed, non-empty sentences of a sentence
list (the sentence content that survives the chunking loop). -/
def cleanList (l : List PyStr) : List PyStr :=
  (l.map pyStrip).filter (fun s => !s.isEmpty)

/-- Specification vocabulary: join strings with single spaces. -/
def interSp : List PyStr → PyStr
  | [] => []
  | [s] => s
  | s :: rest => s ++ [' '] ++ interSp rest

/-- Is the first character of `s` defined and non-whitespace? -/
def headOkB : PyStr → Bool
  | [] => false
  | c :: _ => !ws c

/-- Invariant of the `chunkLoop` accumulator: `current` is either empty or a
non-empty string with non-whitespace first and last characters followed by a
single trailing space. -/
def goodCur (cur : PyStr) : Prop :=
  cur = [] ∨ ∃ p, cur = p ++ [' '] ∧ headOkB p = true ∧ headOkB p.reverse = true

/-- Strengthened accumulator invariant: the packed part `p` additionally fits
the budget or is one of the sentences collected in `S`. -/
def goodCurB (size : Nat) (S : List PyStr) (cur : PyStr) : Prop :=
  cur = [] ∨
    ∃ p, cur = p ++ [' '] ∧ headOkB p = true ∧ headOkB p.reverse = true ∧
      (p.length ≤ size ∨ p ∈ S)

theorem headOkB_nonempty {s : PyStr} (h : headOkB s = true) : s ≠ [] := by
  cases s with
  | nil => simp [headOkB] at h
  | cons c cs => simp

theorem dropWhile_of_headOk {s : PyStr} (h : headOkB s = true) : s.dropWhile ws = s := by
  cases s with
  | nil => rfl
  | cons c cs =>
    simp only [headOkB, Bool.not_eq_true'] at h
    simp [List.dropWhile_cons, h]

theorem dropWhile_headOk_or_nil (s : PyStr) :
    s.dropWhile ws = [] ∨ headOkB (s.dropWhile ws) = true := by
  induction s with
  | nil => exact Or.inl rfl
  | cons c cs ih =>
    by_cases hc : ws c = true
    · simpa [List.dropWhile_cons, hc] using ih
    · right
      simp only [Bool.not_eq_true] at hc
      simp [List.dropWhile_cons, hc, headOkB]

theorem dropWhile_exists_pre (s : PyStr) : ∃ pre, s = pre ++ s.dropWhile ws := by
  induction s with
  | nil => exact ⟨[], rfl⟩
  | cons c cs ih =>
    by_cases hc : ws c = true
    · obtain ⟨pre, hp⟩ := ih
      exact ⟨c :: pre, by simp [List.dropWhile_cons, hc]; exact hp⟩
    · simp only [Bool.not_eq_true] at hc
      exact ⟨[], by simp [List.dropWhile_cons, hc]⟩

theorem headOk_append_left {p : PyStr} (q : PyStr) (h : headOkB p = true) :
    headOkB (p ++ q) = true := by
  cases p with
  | nil => simp [headOkB] at h
  | cons c cs => simpa [headOkB] using h

theorem headOk_of_append {p : PyStr} {q : PyStr} (hne : p ≠ [])
    (h : headOkB (p ++ q) = true) : headOkB p = true := by
  cases p with
  | nil => exact absurd rfl hne
  | cons c cs => simpa [headOkB] using h

theorem strip_of_headOk {p : PyStr} (h1 : headOkB p = true) (h2 : headOkB p.reverse = true) :
    pyStrip p = p := by
  unfold pyStrip
  rw [dropWhile_of_headOk h1, dropWhile_of_headOk h2, List.reverse_reverse]

theorem strip_append_space {p : PyStr} (h1 : headOkB p = true) (h2 : headOkB p.reverse = true) :
    pyStrip (p ++ [' ']) = p := by
  have hsp : ws ' ' = true := by decide
  unfold pyStrip
  rw [dropWhile_of_headOk (headOk_append_left [' '] h1)]
  rw [List.reverse_append]
  simp only [List.reverse_cons, List.reverse_nil, List.nil_append, List.singleton_append]
  rw [List.dropWhile_cons, if_pos hsp, dropWhile_of_headOk h2, List.reverse_reverse]

theorem strip_headOk (s : PyStr) :
    pyStrip s = [] ∨ (headOkB (pyStrip s) = true ∧ headOkB (pyStrip s).reverse = true) := by
  rcases dropWhile_headOk_or_nil ((s.dropWhile ws).reverse) with h | h
  · left
    simp [pyStrip, h]
  · right
    have hrrev : headOkB (pyStrip s).reverse = true := by
      simpa [pyStrip, List.reverse_reverse] using h
    refine ⟨?_, hrrev⟩
    -- decompose the inner dropWhile to relate the head of `pyStrip s` to the
    -- head of `s.dropWhile ws`
    obtain ⟨pre, hpre⟩ := dropWhile_exists_pre ((s.dropWhile ws).reverse)
    have ht : s.dropWhile ws =
        ((s.dropWhile ws).reverse.dropWhile ws).reverse ++ pre.reverse := by
      have := congrArg List.reverse hpre
      simpa [List.reverse_append] using this
    have htOk : headOkB (s.dropWhile ws) = true := by
      rcases dropWhile_headOk_or_nil s with h0 | h0
      · rw [h0] at ht
        have : (s.dropWhile ws).reverse.dropWhile ws = [] := by
          rw [h0]
          rfl
        rw [this] at h
        simp [headOkB] at h
      · exact h0
    have hne : ((s.dropWhile ws).reverse.dropWhile ws).reverse ≠ [] := by
      intro hnil
      have : (s.dropWhile ws).reverse.dropWhile ws = [] := by
        simpa using congrArg List.reverse hnil
      rw [this] at h
      simp [headOkB] at h
    rw [ht] at htOk
    exact headOk_of_append hne htOk

theorem dropWhile_all {s : PyStr} (h : ∀ c ∈ s, ws c = true) : s.dropWhile ws = [] := by
  induction s with
  | nil => rfl
  | cons c cs ih =>
    have hc : ws c = true := h c (by simp)
    simp only [List.dropWhile_cons, if_pos hc]
    exact ih fun d hd => h d (by simp [hd])

theorem strip_ne_nil_exists {s : PyStr} (h : pyStrip s ≠ []) : ∃ c, c ∈ s ∧ ws c = false := by
  by_contra hc
  push_neg at hc
  have hall : ∀ c ∈ s, ws c = true := by
    intro c hcs
    have := hc c hcs
    simpa using this
  have : pyStrip s = [] := by
    simp [pyStrip, dropWhile_all hall]
  exact h this

theorem cleanList_cons (s : PyStr) (rest : List PyStr) :
    cleanList (s :: rest) =
      if pyStrip s = [] then cleanList rest else pyStrip s :: cleanList rest := by
  by_cases h : pyStrip s = [] <;> simp [cleanList, List.filter_cons, h]

theorem interSp_cons (s : PyStr) {l : List PyStr} (h : l ≠ []) :
    interSp (s :: l) = s ++ [' '] ++ interSp l := by
  cases l with
  | nil => exact absurd rfl h
  | cons a t => rfl

theorem chunkLoop_flatten (size : Nat) (sents : List PyStr) :
    ∀ cur : PyStr, goodCur cur →
      (chunkLoop size sents cur).flatten =
        if cleanList sents = [] then pyStrip cur else cur ++ interSp (cleanList sents) := by
  induction sents with
  | nil =>
    intro cur _
    by_cases hc : pyStrip cur = [] <;> simp [chunkLoop, cleanList, hc]
  | cons s rest ih =>
    intro cur h
    by_cases ht : pyStrip s = []
    · have hstep : chunkLoop size (s :: rest) cur = chunkLoop size rest cur := by
        simp [chunkLoop, ht]
      rw [hstep, cleanList_cons, if_pos ht]
      exact ih cur h
    · obtain ⟨hOk1, hOk2⟩ : headOkB (pyStrip s) = true ∧ headOkB (pyStrip s).reverse = true := by
        rcases strip_headOk s with h0 | h0
        · exact absurd h0 ht
        · exact h0
      have hclean : cleanList (s :: rest) = pyStrip s :: cleanList rest := by
        rw [cleanList_cons, if_neg ht]
      by_cases hy : cur ≠ [] ∧ size < cur.length + (pyStrip s).length
      · have hstep : chunkLoop size (s :: rest) cur =
            cur :: chunkLoop size rest (pyStrip s ++ [' ']) := by
          simp only [chunkLoop]
          rw [if_neg ht, if_pos hy]
        rw [hstep, List.flatten_cons,
          ih (pyStrip s ++ [' ']) (Or.inr ⟨pyStrip s, rfl, hOk1, hOk2⟩), hclean]
        by_cases hr : cleanList rest = []
        · rw [if_pos hr, if_neg (by simp), hr, strip_append_space hOk1 hOk2]
          rfl
        · rw [if_neg hr, if_neg (by simp), interSp_cons _ hr]
      · have hstep : chunkLoop size (s :: rest) cur =
            chunkLoop size rest (cur ++ pyStrip s ++ [' ']) := by
          simp only [chunkLoop]
          rw [if_neg ht, if_neg hy]
        have hcOk1 : headOkB (cur ++ pyStrip s) = true := by
          rcases h with rfl | ⟨p, rfl, hp1, _⟩
          · simpa using hOk1
          · rw [List.append_assoc]
            exact headOk_append_left _ hp1
        have hcOk2 : headOkB (cur ++ pyStrip s).reverse = true := by
          rw [List.reverse_append]
          exact headOk_append_left _ hOk2
        have hgood : goodCur (cur ++ pyStrip s ++ [' ']) :=
          Or.inr ⟨cur ++ pyStrip s, by simp [List.append_assoc], hcOk1, hcOk2⟩
        rw [hstep, ih _ hgood, hclean]
        by_cases hr : cleanList rest = []
        · rw [if_pos hr, if_neg (by simp), hr, strip_append_space hcOk1 hcOk2]
          rfl
        · rw [if_neg hr, if_neg (by simp), interSp_cons _ hr]
          simp [List.append_assoc]

theorem chunkLoop_mem (size : Nat) (sents : List PyStr) :
    ∀ (cur : PyStr) (S : List PyStr), goodCurB size S cur →
      ∀ c ∈ chunkLoop size sents cur,
        pyStrip c ≠ [] ∧
          ((pyStrip c).length ≤ size ∨ pyStrip c ∈ S ∨ pyStrip c ∈ cleanList sents) := by
  induction sents with
  | nil =>
    intro cur S h c hc
    by_cases hnil : pyStrip cur = []
    · simp [chunkLoop, hnil] at hc
    · simp only [chunkLoop, if_neg hnil, List.mem_singleton] at hc
      subst hc
      rcases h with rfl | ⟨p, rfl, hp1, hp2, hp3⟩
      · exact absurd rfl hnil
      · rw [strip_append_space hp1 hp2]
        rw [strip_of_headOk hp1 hp2]
        exact ⟨headOkB_nonempty hp1, by tauto⟩
  | cons s rest ih =>
    intro cur S h c hc
    by_cases ht : pyStrip s = []
    · have hstep : chunkLoop size (s :: rest) cur = chunkLoop size rest cur := by
        simp [chunkLoop, ht]
      rw [hstep] at hc
      have := ih cur S h c hc
      rw [cleanList_cons, if_pos ht]
      exact this
    · obtain ⟨hOk1, hOk2⟩ : headOkB (pyStrip s) = true ∧ headOkB (pyStrip s).reverse = true := by
        rcases strip_headOk s with h0 | h0
        · exact absurd h0 ht
        · exact h0
      have hclean : cleanList (s :: rest) = pyStrip s :: cleanList rest := by
        rw [cleanList_cons, if_neg ht]
      rw [hclean]
      by_cases hy : cur ≠ [] ∧ size < cur.length + (pyStrip s).length
      · have hstep : chunkLoop size (s :: rest) cur =
            cur :: chunkLoop size rest (pyStrip s ++ [' ']) := by
          simp only [chunkLoop]
          rw [if_neg ht, if_pos hy]
        rw [hstep] at hc
        rcases List.mem_cons.mp hc with rfl | hc
        · rcases h with rfl | ⟨p, rfl, hp1, hp2, hp3⟩
          · exact absurd rfl hy.1
          · rw [strip_append_space hp1 hp2]
            exact ⟨headOkB_nonempty hp1, by tauto⟩
        · have hinv : goodCurB size (pyStrip s :: S) (pyStrip s ++ [' ']) :=
            Or.inr ⟨pyStrip s, rfl, hOk1, hOk2, Or.inr (by simp)⟩
          obtain ⟨hne, hmem⟩ := ih (pyStrip s ++ [' ']) (pyStrip s :: S) hinv c hc
          refine ⟨hne, ?_⟩
          rcases hmem with hlen | hS | hrest
          · exact Or.inl hlen
          · rcases List.mem_cons.mp hS with heq | hS
            · exact Or.inr (Or.inr (by simp [heq]))
            · exact Or.inr (Or.inl hS)
          · exact Or.inr (Or.inr (by simp [hrest]))
      · have hstep : chunkLoop size (s :: rest) cur =
            chunkLoop size rest (cur ++ pyStrip s ++ [' ']) := by
          simp only [chunkLoop]
          rw [if_neg ht, if_neg hy]
        rw [hstep] at hc
        have hcOk1 : headOkB (cur ++ pyStrip s) = true := by
          rcases h with rfl | ⟨p, rfl, hp1, _⟩
          · simpa using hOk1
          · rw [List.append_assoc]
            exact headOk_append_left _ hp1
        have hcOk2 : headOkB (cur ++ pyStrip s).reverse = true := by
          rw [List.reverse_append]
          exact headOk_append_left _ hOk2
        have hsz : (cur ++ pyStrip s).length ≤ size ∨ cur ++ pyStrip s ∈ pyStrip s :: S := by
          rcases h with rfl | ⟨p, rfl, hp1, hp2, hp3⟩
          · exact Or.inr (by simp)
          · left
            rw [Classical.not_and_iff_or_not_not] at hy
            rcases hy with hy | hy
            · exact absurd (by simp) hy
            · simp only [Nat.not_lt, List.length_append, List.length_cons,
                List.length_nil] at hy ⊢
              omega
        have hinv : goodCurB size (pyStrip s :: S) (cur ++ pyStrip s ++ [' ']) :=
          Or.inr ⟨cur ++ pyStrip s, by simp [List.append_assoc], hcOk1, hcOk2, hsz⟩
        obtain ⟨hne, hmem⟩ := ih (cur ++ pyStrip s ++ [' ']) (pyStrip s :: S) hinv c hc
        refine ⟨hne, ?_⟩
        rcases hmem with hlen | hS | hrest
        · exact Or.inl hlen
        · rcases List.mem_cons.mp hS with heq | hS
          · exact Or.inr (Or.inr (by simp [heq]))
          · exact Or.inr (Or.inl hS)
        · exact Or.inr (Or.inr (by simp [hrest]))

theorem chunk_text_flatten (text : PyStr) (size : Nat) :
    (chunk_text text size).flatten = interSp (cleanList (chunk_sentences text)) := by
  by_cases h : text = []
  · subst h
    rfl
  · rw [chunk_text, if_neg h, chunkLoop_flatten size _ [] (Or.inl rfl)]
    by_cases hc : cleanList (chunk_sentences text) = []
    · rw [if_pos hc, hc]
      rfl
    · rw [if_neg hc, List.nil_append]

theorem chunk_text_mem (text : PyStr) (size : Nat) :
    ∀ c ∈ chunk_text text size,
      pyStrip c ≠ [] ∧
        ((pyStrip c).length ≤ size ∨ pyStrip c ∈ cleanList (chunk_sentences text)) := by
  intro c hc
  by_cases h : text = []
  · subst h
    simp [chunk_text] at hc
  · rw [chunk_text, if_neg h] at hc
    obtain ⟨hne, hm⟩ := chunkLoop_mem size (chunk_sentences text) [] [] (Or.inl rfl) c hc
    refine ⟨hne, ?_⟩
    rcases hm with h1 | h2 | h3
    · exact Or.inl h1
    · simp at h2
    · exact Or.inr h3

/-- C4 (amended): `chunk_text` splits at the sentence boundaries obtained from
the source's replace-and-split step and packs whole sentences greedily; the
concatenation of all yielded chunks equals the text's trimmed sentences joined
by single spaces; every chunk, stripped of its trailing space, fits the
budget 30 unless it is a single sentence longer than the budget; and on the
spec's example query the chunks are exactly the three sentences (the first two
carrying their trailing space) and concatenate to the original text. -/
theorem C4_chunk_text_budget_and_reconstruction (text : PyStr) :
    (chunk_text text 30).flatten = interSp (cleanList (chunk_sentences text)) ∧
    (∀ c ∈ chunk_text text 30,
       (pyStrip c).length ≤ 30 ∨
         (pyStrip c ∈ cleanList (chunk_sentences text) ∧ 30 < (pyStrip c).length)) ∧
    chunk_text (pyOf ("This is a test. Another sentence! And one more?")) 30 =
      [pyOf ("This is a test. "), pyOf ("Another sentence! "), pyOf ("And one more?")] ∧
    (chunk_text (pyOf ("This is a test. Another sentence! And one more?")) 30).flatten =
      pyOf ("This is a test. Another sentence! And one more?") := by
  refine ⟨chunk_text_flatten text 30, ?_, by decide, by decide⟩
  intro c hc
  obtain ⟨_, hm⟩ := chunk_text_mem text 30 c hc
  rcases hm with h1 | h2
  · exact Or.inl h1
  · by_cases hlen : (pyStrip c).length ≤ 30
    · exact Or.inl hlen
    · exact Or.inr ⟨h2, by omega⟩

/-- C4 counterexample: at budget 30 the input
`"aaaaaaaaa. bbbbbbbbbbbbbbbbbb. c."` (sentences of lengths 10, 19 and 2, all
within the budget) makes `chunk_text` yield a first chunk of 31 characters —
two whole sentences plus the trailing space — so the claim that no chunk
exceeds the budget except a single over-long sentence is false as stated. -/
theorem C4_counterexample :
    (chunk_text (pyOf ("aaaaaaaaa. bbbbbbbbbbbbbbbbbb. c.")) 30).map List.length = [31, 2] ∧
    (cleanList (chunk_sentences (pyOf ("aaaaaaaaa. bbbbbbbbbbbbbbbbbb. c.")))).all
      (fun s => decide (s.length ≤ 30)) = true := by
  decide

/-- C4 witness: the amended budget bound evaluated on the first chunk of the
spec's example query. -/
theorem C4_witness :
    (pyStrip (pyOf ("This is a test. "))).length ≤ 30 ∨
      (pyStrip (pyOf ("This is a test. ")) ∈
          cleanList (chunk_sentences (pyOf ("This is a test. Another sentence! And one more?"))) ∧
        30 < (pyStrip (pyOf ("This is a test. "))).length) :=
  (C4_chunk_text_budget_and_reconstruction
      (pyOf ("This is a test. Another sentence! And one more?"))).2.1
    (pyOf ("This is a test. ")) (by decide)

/-- C10: for an empty orchestrator answer, `chunk_text` yields no chunks, and
the streamed event sequence is exactly a start event followed by a done
event. -/
theorem C10_empty_answer_stream :
    chunk_text [] 30 = [] ∧
    generate_sse_response (Except.ok ()) (Except.ok []) = [SSEEvent.start, SSEEvent.done] :=
  ⟨rfl, rfl⟩

/-- C9: every chunk yielded by `chunk_text` at a positive budget contains a
non-whitespace character, and consequently every chunk event emitted by
`generate_sse_response` carries content with a non-whitespace character. -/
theorem C9_chunks_nonblank :
    (∀ (text : PyStr) (size : Nat), 0 < size →
       ∀ c ∈ chunk_text text size, ∃ ch, ch ∈ c ∧ ws ch = false) ∧
    (∀ (initR : Except PyStr Unit) (queryR : Except PyStr PyStr) (c : PyStr),
       SSEEvent.chunk c ∈ generate_sse_response initR queryR →
         ∃ ch, ch ∈ c ∧ ws ch = false) := by
  have hmain : ∀ (text : PyStr) (size : Nat), ∀ c ∈ chunk_text text size,
      ∃ ch, ch ∈ c ∧ ws ch = false := by
    intro text size c hc
    obtain ⟨hne, _⟩ := chunk_text_mem text size c hc
    exact strip_ne_nil_exists hne
  refine ⟨fun text size _ => hmain text size, ?_⟩
  intro initR queryR c hc
  cases initR with
  | error e => simp [generate_sse_response] at hc
  | ok u =>
    cases queryR with
    | error e => simp [generate_sse_response] at hc
    | ok ans =>
      simp only [generate_sse_response] at hc
      rcases List.mem_cons.mp hc with h1 | h1
      · exact absurd h1 (by simp)
      · rcases List.mem_append.mp h1 with h2 | h2
        · obtain ⟨d, hd, heq⟩ := List.mem_map.mp h2
          injection heq with hdc
          exact hdc ▸ hmain ans 30 d hd
        · simp at h2

/-- C9 witness: the single chunk of the answer sentence contains a
non-whitespace character. -/
theorem C9_witness :
    ∃ ch, ch ∈ pyOf ("Hello. World.") ∧ ws ch = false :=
  C9_chunks_nonblank.1 (pyOf ("Hello. World.")) 30 (by decide)
    (pyOf ("Hello. World.")) (by decide)

theorem filter_isStart_map_chunk (cs : List PyStr) :
    (cs.map SSEEvent.chunk).filter isStart = [] := by
  induction cs with
  | nil => rfl
  | cons a t ih => simp [List.filter_cons, isStart, ih]

theorem filter_isTerminal_map_chunk (cs : List PyStr) :
    (cs.map SSEEvent.chunk).filter isTerminal = [] := by
  induction cs with
  | nil => rfl
  | cons a t ih => simp [List.filter_cons, isTerminal, ih]

theorem filterMap_contentOf_map_chunk (cs : List PyStr) :
    (cs.map SSEEvent.chunk).filterMap contentOf = cs := by
  induction cs with
  | nil => rfl
  | cons a t ih => simpa [List.filterMap_cons, contentOf] using ih

theorem filterMap_contentOf_comp_chunk (cs : List PyStr) :
    cs.filterMap (contentOf ∘ SSEEvent.chunk) = cs := by
  induction cs with
  | nil => rfl
  | cons a t ih => simpa [List.filterMap_cons, contentOf, Function.comp] using ih

/-- C1 (amended): for every streamed request, when chatbot initialization
succeeds the event sequence starts with exactly one start event, ends with
exactly one terminal event (done on success, error if the query raised) with
no terminal event before the last position, and its chunk events are exactly
the `chunk_text` chunks of the answer in original-text order, whose
concatenation is the answer's trimmed sentences joined by single spaces (the
answer modulo whitespace normalization at sentence boundaries); when
initialization raises, the sequence is a single error event with no start
event; in every case no chunk or done event follows an error event. -/
theorem C1_stream_event_protocol (initR : Except PyStr Unit) (queryR : Except PyStr PyStr) :
    countStart (generate_sse_response initR queryR) = (if exOk initR then 1 else 0) ∧
    (exOk initR = true → (generate_sse_response initR queryR).head? = some SSEEvent.start) ∧
    ((generate_sse_response initR queryR).filter isTerminal).length = 1 ∧
    ((generate_sse_response initR queryR).getLast?).map isTerminal = some true ∧
    (generate_sse_response initR queryR).dropLast.filter isTerminal = [] ∧
    (∀ e, initR = Except.error e →
       generate_sse_response initR queryR = [SSEEvent.error e]) ∧
    (∀ e, initR = Except.ok () → queryR = Except.error e →
       generate_sse_response initR queryR = [SSEEvent.start, SSEEvent.error e]) ∧
    (∀ ans, initR = Except.ok () → queryR = Except.ok ans →
       (generate_sse_response initR queryR).getLast? = some SSEEvent.done ∧
       (generate_sse_response initR queryR).filterMap contentOf = chunk_text ans 30 ∧
       chunkConcat (generate_sse_response initR queryR) =
         interSp (cleanList (chunk_sentences ans))) ∧
    (exOk initR = false ∨ exOk queryR = false →
       chunkConcat (generate_sse_response initR queryR) = []) := by
  cases initR with
  | error e =>
    cases queryR <;>
      simp [generate_sse_response, countStart, chunkConcat, exOk, isStart, isTerminal,
        contentOf, List.filter_cons, List.filterMap_cons]
  | ok u =>
    cases u
    cases queryR with
    | error e =>
      simp [generate_sse_response, countStart, chunkConcat, exOk, isStart, isTerminal,
        contentOf, List.filter_cons, List.filterMap_cons]
    | ok ans =>
      have hshape : generate_sse_response (Except.ok ()) (Except.ok ans) =
          (SSEEvent.start :: (chunk_text ans 30).map SSEEvent.chunk) ++ [SSEEvent.done] := by
        simp [generate_sse_response]
      refine ⟨?_, ?_, ?_, ?_, ?_, ?_, ?_, ?_, ?_⟩
      · simp [countStart, generate_sse_response, List.filter_cons, List.filter_append,
          isStart, filter_isStart_map_chunk, exOk]
      · intro _
        simp [generate_sse_response]
      · simp [generate_sse_response, List.filter_cons, List.filter_append, isTerminal,
          filter_isTerminal_map_chunk]
      · rw [hshape, List.getLast?_concat]
        rfl
      · rw [hshape, List.dropLast_concat]
        simp [List.filter_cons, isTerminal, filter_isTerminal_map_chunk]
      · intro e he
        simp at he
      · intro e _ he
        simp at he
      · intro a _ ha
        injection ha with ha
        subst ha
        refine ⟨?_, ?_, ?_⟩
        · rw [hshape, List.getLast?_concat]
        · simp [generate_sse_response, List.filterMap_cons, List.filterMap_append,
            contentOf, filterMap_contentOf_map_chunk, filterMap_contentOf_comp_chunk]
        · rw [show chunkConcat (generate_sse_response (Except.ok ()) (Except.ok ans)) =
              (chunk_text ans 30).flatten from by
            simp [chunkConcat, generate_sse_response, List.filterMap_cons,
              List.filterMap_append, contentOf, filterMap_contentOf_map_chunk,
              filterMap_contentOf_comp_chunk]]
          exact chunk_text_flatten ans 30
      · intro hf
        rcases hf with hf | hf <;> simp [exOk] at hf

/-- C1 counterexample: (i) when `initialize_chatbot()` raises, the generator
yields only an error event, so the stream contains no start event at all;
(ii) for the answer `"Hi.  Bye."` the concatenated chunk contents differ from
the full answer even after trailing-whitespace normalization, because the
sentence split collapses the doubled space after the first sentence. -/
theorem C1_counterexample :
    countStart (generate_sse_response (Except.error (pyOf ("init failed")))
        (Except.ok (pyOf ("Hello.")))) = 0 ∧
    pyRStrip (chunkConcat (generate_sse_response (Except.ok ())
        (Except.ok (pyOf ("Hi.  Bye."))))) ≠ pyRStrip (pyOf ("Hi.  Bye.")) := by
  decide

/-- C1 witness: the amended protocol evaluated on a successful request (start
first, done terminal, chunks in order), on a failed query (start then a single
error event) and on a failed initialization (a single error event, no chunk
content). -/
theorem C1_witness :
    (generate_sse_response (Except.ok ()) (Except.ok (pyOf ("Hello. World.")))).head? =
        some SSEEvent.start ∧
    generate_sse_response (Except.error (pyOf ("boom")))
        (Except.ok (pyOf ("Hello. World."))) = [SSEEvent.error (pyOf ("boom"))] ∧
    generate_sse_response (Except.ok ()) (Except.error (pyOf ("query failed"))) =
        [SSEEvent.start, SSEEvent.error (pyOf ("query failed"))] ∧
    (generate_sse_response (Except.ok ()) (Except.ok (pyOf ("Hello. World.")))).getLast? =
        some SSEEvent.done ∧
    (generate_sse_response (Except.ok ()) (Except.ok (pyOf ("Hello. World.")))).filterMap
        contentOf = chunk_text (pyOf ("Hello. World.")) 30 ∧
    chunkConcat (generate_sse_response (Except.error (pyOf ("boom")))
        (Except.ok (pyOf ("Hello. World.")))) = [] :=
  ⟨(C1_stream_event_protocol (Except.ok ()) (Except.ok (pyOf ("Hello. World.")))).2.1
      (by decide),
   (C1_stream_event_protocol (Except.error (pyOf ("boom")))
      (Except.ok (pyOf ("Hello. World.")))).2.2.2.2.2.1 (pyOf ("boom")) rfl,
   (C1_stream_event_protocol (Except.ok ())
      (Except.error (pyOf ("query failed")))).2.2.2.2.2.2.1 (pyOf ("query failed")) rfl rfl,
   ((C1_stream_event_protocol (Except.ok ())
      (Except.ok (pyOf ("Hello. World.")))).2.2.2.2.2.2.2.1
      (pyOf ("Hello. World.")) rfl rfl).1,
   ((C1_stream_event_protocol (Except.ok ())
      (Except.ok (pyOf ("Hello. World.")))).2.2.2.2.2.2.2.1
      (pyOf ("Hello. World.")) rfl rfl).2.1,
   (C1_stream_event_protocol (Except.error (pyOf ("boom")))
      (Except.ok (pyOf ("Hello. World.")))).2.2.2.2.2.2.2.2 (Or.inl (by decide))⟩

/-- C2 (amended): `get_pipeline_for_intent` yields exactly one pipeline value
among RAG, EXTERNAL and UNKNOWN — RAG exactly for members of the RAG-intents
set, EXTERNAL exactly for members of the EXTERNAL-intents set, UNKNOWN exactly
for intents in neither — and the two sets are disjoint; the `pipeline` field
computed by `route_query`, however, is RAG for RAG-set intents and EXTERNAL
for every other intent, never UNKNOWN. -/
theorem C2_routing (intent : PyStr) :
    (get_pipeline_for_intent intent = pyOf ("RAG") ∨
     get_pipeline_for_intent intent = pyOf ("EXTERNAL") ∨
     get_pipeline_for_intent intent = pyOf ("UNKNOWN")) ∧
    (get_pipeline_for_intent intent = pyOf ("RAG") ↔ should_use_rag intent = true) ∧
    (get_pipeline_for_intent intent = pyOf ("EXTERNAL") ↔
       should_use_rag intent = false ∧ should_use_external intent = true) ∧
    (get_pipeline_for_intent intent = pyOf ("UNKNOWN") ↔
       should_use_rag intent = false ∧ should_use_external intent = false) ∧
    (should_use_rag intent = true → should_use_external intent = false) ∧
    (route_query_pipeline intent = pyOf ("RAG") ↔ should_use_rag intent = true) ∧
    route_query_pipeline intent ≠ pyOf ("UNKNOWN") := by
  have hdisj : should_use_rag intent = true → should_use_external intent = false := by
    intro hr
    have h1 : intent = COMPANY_INTERNSHIP := by
      simpa [should_use_rag, rag_intents] using hr
    subst h1
    decide
  cases hr : should_use_rag intent with
  | true =>
    have he : should_use_external intent = false := hdisj hr
    simp only [get_pipeline_for_intent, route_query_pipeline, hr, he, if_true]
    decide
  | false =>
    cases he : should_use_external intent with
    | true =>
      simp only [get_pipeline_for_intent, route_query_pipeline, hr, he,
        Bool.false_eq_true, if_false, if_true]
      decide
    | false =>
      simp only [get_pipeline_for_intent, route_query_pipeline, hr, he,
        Bool.false_eq_true, if_false]
      decide

/-- C2 counterexample: for an intent in neither set (here the fallback intent
string UNKNOWN itself), the `pipeline` field computed by `route_query` is
EXTERNAL, not UNKNOWN, so the claim is false for `route_query`'s routing
decision. -/
theorem C2_counterexample :
    route_query_pipeline (pyOf ("UNKNOWN")) = pyOf ("EXTERNAL") ∧
    should_use_rag (pyOf ("UNKNOWN")) = false ∧
    should_use_external (pyOf ("UNKNOWN")) = false := by
  decide

/-- C2 witness: the characterization evaluated on a RAG intent and on an
unknown intent. -/
theorem C2_witness :
    get_pipeline_for_intent COMPANY_INTERNSHIP = pyOf ("RAG") ∧
    get_pipeline_for_intent (pyOf ("weather")) = pyOf ("UNKNOWN") :=
  ⟨(C2_routing COMPANY_INTERNSHIP).2.1.mpr (by decide),
   (C2_routing (pyOf ("weather"))).2.2.2.1.mpr ⟨by decide, by decide⟩⟩

/-- C3: `Retriever.retrieve` never propagates an exception of the query
processor, the embedding step or the vector search: whenever any of those
steps raises, the result is the empty list. -/
theorem C3_retrieve_degrades_to_empty {E S : Type} (query : PyStr) (top_k : Option Nat)
    (filter_by : Option (List (PyStr × PyStr))) (self_top_k : Nat)
    (processQ : PyStr → Except PyStr (PyStr × PyStr))
    (embed : PyStr → Except PyStr E)
    (search : E → Nat → Option (List (PyStr × PyStr)) → Except PyStr (List (SearchHit S)))
    (h : retrieveStepFails query top_k filter_by self_top_k processQ embed search) :
    retrieve query top_k filter_by self_top_k processQ embed search = [] := by
  by_cases hq : query = []
  · simp [retrieve, hq]
  · rcases h with ⟨e, he⟩ | ⟨nk, e, hp, he⟩ | ⟨nk, emb, e, hp, hemb, hs⟩
    · simp [retrieve, hq, he]
    · have he2 : embed (if nk.2 = [] then nk.1 else nk.2) = Except.error e := by
        simpa [ne_eq, ite_not] using he
      simp [retrieve, hq, hp, he2]
    · have hemb2 : embed (if nk.2 = [] then nk.1 else nk.2) = Except.ok emb := by
        simpa [ne_eq, ite_not] using hemb
      simp [retrieve, hq, hp, hemb2, hs]

/-- C3 witness: a simulated vector-search failure yields the empty result. -/
theorem C3_witness :
    retrieve (pyOf ("internships at Acme")) none none 5
      (fun q => Except.ok (q, q)) (fun _ => Except.ok ())
      (fun _ _ _ => Except.error (pyOf ("vector search down"))) =
      ([] : List (RetrievedDoc Unit)) :=
  C3_retrieve_degrades_to_empty (pyOf ("internships at Acme")) none none 5
    (fun q => Except.ok (q, q)) (fun _ => Except.ok ())
    (fun _ _ _ => Except.error (pyOf ("vector search down")))
    (Or.inr (Or.inr ⟨(pyOf ("internships at Acme"), pyOf ("internships at Acme")), (),
      pyOf ("vector search down"), rfl, rfl, rfl⟩))

/-- C8: for the empty (falsy) query string, `Retriever.retrieve` returns the
empty list for every `top_k`, every filter and every behaviour of the query
processor, the embedding generator and the vector search client — so none of
them is consulted. -/
theorem C8_empty_query_short_circuit {E S : Type} (top_k : Option Nat)
    (filter_by : Option (List (PyStr × PyStr))) (self_top_k : Nat)
    (processQ : PyStr → Except PyStr (PyStr × PyStr))
    (embed : PyStr → Except PyStr E)
    (search : E → Nat → Option (List (PyStr × PyStr)) → Except PyStr (List (SearchHit S))) :
    retrieve [] top_k filter_by self_top_k processQ embed search = [] := by
  simp [retrieve]

/-- C5 (amended): the POST /query handler returns 400 with the message
`user_id and session_id are required` exactly when user_id or session_id is
missing or the empty string (whitespace-only values pass this check); it then
returns 400 with `query is required` exactly when query is missing, empty, or
blank after stripping — in particular for the empty query; past both checks it
returns 500 carrying the error message when chatbot initialization or the
orchestrator call raises, and otherwise the 200 success response with the
orchestrator's answer, so only requests passing the checks reach the
orchestrator. -/
theorem C5_query_handler (req : QueryRequest) (initR : Except PyStr Unit)
    (botQuery : PyStr → PyStr → PyStr → Except PyStr PyStr) :
    (pyFalsy req.user_id = true ∨ pyFalsy req.session_id = true →
       query_handler req initR botQuery =
         HttpResponse.badRequest (pyOf ("user_id and session_id are required"))) ∧
    (pyFalsy req.user_id = false → pyFalsy req.session_id = false →
       (pyFalsy req.query = true ∨ pyStrip (req.query.getD []) = []) →
       query_handler req initR botQuery =
         HttpResponse.badRequest (pyOf ("query is required"))) ∧
    (∀ e, pyFalsy req.user_id = false → pyFalsy req.session_id = false →
       pyFalsy req.query = false → pyStrip (req.query.getD []) ≠ [] →
       initR = Except.error e →
       query_handler req initR botQuery = HttpResponse.serverError e) ∧
    (∀ e, pyFalsy req.user_id = false → pyFalsy req.session_id = false →
       pyFalsy req.query = false → pyStrip (req.query.getD []) ≠ [] →
       initR = Except.ok () →
       botQuery (req.query.getD []) (req.user_id.getD []) (req.session_id.getD []) =
         Except.error e →
       query_handler req initR botQuery = HttpResponse.serverError e) ∧
    (∀ ans, pyFalsy req.user_id = false → pyFalsy req.session_id = false →
       pyFalsy req.query = false → pyStrip (req.query.getD []) ≠ [] →
       initR = Except.ok () →
       botQuery (req.query.getD []) (req.user_id.getD []) (req.session_id.getD []) =
         Except.ok ans →
       query_handler req initR botQuery = HttpResponse.ok ans (req.session_id.getD [])) := by
  refine ⟨?_, ?_, ?_, ?_, ?_⟩
  · intro h
    rcases h with h | h <;> simp [query_handler, h]
  · intro hu hs hq
    rcases hq with hq | hq <;>
      simp [query_handler, hu, hs, hq, List.isEmpty_iff]
  · intro e hu hs hq hst hinit
    simp [query_handler, hu, hs, hq, hst, hinit, List.isEmpty_iff]
  · intro e hu hs hq hst hinit hbot
    simp [query_handler, hu, hs, hq, hst, hinit, hbot, List.isEmpty_iff]
  · intro ans hu hs hq hst hinit hbot
    simp [query_handler, hu, hs, hq, hst, hinit, hbot, List.isEmpty_iff]

/-- C5 counterexample: a whitespace-only (blank but truthy) user_id is not
rejected with 400 — the request reaches the orchestrator and succeeds with
200, so the claim that any blank user_id yields 400 and never reaches the
orchestrator is false. -/
theorem C5_counterexample :
    pyStrip (pyOf (" ")) = [] ∧
    query_handler ⟨some (pyOf (" ")), some (pyOf ("s1")), some (pyOf ("hello"))⟩
        (Except.ok ()) (fun _ _ _ => Except.ok (pyOf ("answer"))) =
      HttpResponse.ok (pyOf ("answer")) (pyOf ("s1")) := by
  decide

/-- C5 witness: the amended contract evaluated on an empty query (400 with the
`query is required` body) and on a valid request (200 with the answer). -/
theorem C5_witness :
    query_handler ⟨some (pyOf ("u1")), some (pyOf ("s1")), some (pyOf (""))⟩
        (Except.ok ()) (fun _ _ _ => Except.ok (pyOf ("answer"))) =
      HttpResponse.badRequest (pyOf ("query is required")) ∧
    query_handler ⟨some (pyOf ("u1")), some (pyOf ("s1")), some (pyOf ("hi"))⟩
        (Except.ok ()) (fun _ _ _ => Except.ok (pyOf ("answer"))) =
      HttpResponse.ok (pyOf ("answer")) (pyOf ("s1")) :=
  ⟨(C5_query_handler ⟨some (pyOf ("u1")), some (pyOf ("s1")), some (pyOf (""))⟩
      (Except.ok ()) (fun _ _ _ => Except.ok (pyOf ("answer")))).2.1
      (by decide) (by decide) (Or.inl (by decide)),
   (C5_query_handler ⟨some (pyOf ("u1")), some (pyOf ("s1")), some (pyOf ("hi"))⟩
      (Except.ok ()) (fun _ _ _ => Except.ok (pyOf ("answer")))).2.2.2.2 (pyOf ("answer"))
      (by decide) (by decide) (by decide) (by decide) rfl rfl⟩

/-- C6 (amended): the warm flag starts false; an unwarmed `pre_warm_pipeline`
invocation sets it true exactly when both the embedding call and the retrieval
call succeed, and performs each underlying call at most once; once the flag is
set, any further invocation performs no underlying calls and leaves the flag
set (so two sequential calls perform the calls at most once each provided the
first succeeds — after a failed first call the flag stays false and a second
call retries). -/
theorem C6_warm_idempotence (e1 r1 e2 r2 : Except PyStr Unit) :
    is_warmed_up_initial = false ∧
    ((pre_warm_pipeline false e1 r1).is_warmed_up = true ↔
       e1 = Except.ok () ∧ r1 = Except.ok ()) ∧
    pre_warm_pipeline true e2 r2 = ⟨true, 0, 0⟩ ∧
    ((pre_warm_pipeline false e1 r1).is_warmed_up = true →
       pre_warm_pipeline (pre_warm_pipeline false e1 r1).is_warmed_up e2 r2 =
         ⟨true, 0, 0⟩) ∧
    (pre_warm_pipeline false e1 r1).embed_calls ≤ 1 ∧
    (pre_warm_pipeline false e1 r1).retrieve_calls ≤ 1 := by
  cases e1 with
  | error a =>
    cases r1 <;> simp [pre_warm_pipeline, is_warmed_up_initial]
  | ok u =>
    cases u
    cases r1 with
    | error b => simp [pre_warm_pipeline, is_warmed_up_initial]
    | ok v =>
      cases v
      simp [pre_warm_pipeline, is_warmed_up_initial]

/-- C6 counterexample: if the first warm-up attempt fails in the embedding
call, the flag stays false and a second invocation performs the embedding call
again — two embedding calls across two sequential invocations, refuting the
unconditional claim of at most one call each. -/
theorem C6_counterexample :
    (pre_warm_pipeline false (Except.error (pyOf ("encode failed")))
        (Except.ok ())).embed_calls +
      (pre_warm_pipeline
          (pre_warm_pipeline false (Except.error (pyOf ("encode failed")))
            (Except.ok ())).is_warmed_up
          (Except.ok ()) (Except.ok ())).embed_calls = 2 := by
  decide

/-- C6 witness: after a successful first warm-up, the second invocation makes
no underlying calls and keeps the flag set. -/
theorem C6_witness :
    pre_warm_pipeline
        (pre_warm_pipeline false (Except.ok ()) (Except.ok ())).is_warmed_up
        (Except.ok ()) (Except.ok ()) = ⟨true, 0, 0⟩ :=
  (C6_warm_idempotence (Except.ok ()) (Except.ok ()) (Except.ok ())
      (Except.ok ())).2.2.2.1
    ((C6_warm_idempotence (Except.ok ()) (Except.ok ()) (Except.ok ())
        (Except.ok ())).2.1.mpr ⟨rfl, rfl⟩)

/-- C7 (amended): `ingest_qa_pair` returns false without raising when the
question or answer is missing, when the embedding raises, or when the upsert
raises; on success it returns true, having upserted a single point keyed by
the fresh identifier, whose payload content is
`Question: <question>` followed by a blank line and `Answer: <answer>` (two
newlines, not one), with metadata tagging it as a generated Q&A source. -/
theorem C7_ingest_qa_pair {E : Type} (q a nid : PyStr)
    (embed : PyStr → Except PyStr E) (upsert : QAPoint E → Except PyStr Unit) :
    (q = [] ∨ a = [] → ingest_qa_pair q a nid embed upsert = false) ∧
    (∀ e, embed q = Except.error e → ingest_qa_pair q a nid embed upsert = false) ∧
    (∀ emb e, embed q = Except.ok emb → upsert (qa_point q a nid emb) = Except.error e →
       ingest_qa_pair q a nid embed upsert = false) ∧
    (∀ emb, q ≠ [] → a ≠ [] → embed q = Except.ok emb →
       upsert (qa_point q a nid emb) = Except.ok () →
       ingest_qa_pair q a nid embed upsert = true) ∧
    (∀ emb : E, (qa_point q a nid emb).id = nid ∧
       (qa_point q a nid emb).vector = emb ∧
       (qa_point q a nid emb).payload.lookup (pyOf ("content")) =
         some (pyOf ("Question: ") ++ q ++ pyOf ("\n\nAnswer: ") ++ a) ∧
       (qa_point q a nid emb).payload.lookup (pyOf ("document_type")) =
         some (pyOf ("Generated Q&A")) ∧
       (qa_point q a nid emb).payload.lookup (pyOf ("company")) =
         some (pyOf ("General Knowledge")) ∧
       (qa_point q a nid emb).payload.lookup (pyOf ("source")) =
         some (pyOf ("Gemini LLM"))) := by
  refine ⟨?_, ?_, ?_, ?_, ?_⟩
  · intro h
    simp [ingest_qa_pair, h]
  · intro e he
    by_cases h0 : q = [] ∨ a = []
    · simp [ingest_qa_pair, h0]
    · simp [ingest_qa_pair, h0, he]
  · intro emb e hemb hup
    by_cases h0 : q = [] ∨ a = []
    · simp [ingest_qa_pair, h0]
    · simp [ingest_qa_pair, h0, hemb, hup]
  · intro emb hq ha hemb hup
    have h0 : ¬(q = [] ∨ a = []) := by
      intro h
      rcases h with h | h
      · exact hq h
      · exact ha h
    simp [ingest_qa_pair, h0, hemb, hup]
  · intro emb
    have k1 : (pyOf ("content") == pyOf ("content")) = true := by decide
    have k2 : (pyOf ("document_type") == pyOf ("content")) = false := by decide
    have k3 : (pyOf ("document_type") == pyOf ("document_type")) = true := by decide
    have k4 : (pyOf ("company") == pyOf ("content")) = false := by decide
    have k5 : (pyOf ("company") == pyOf ("document_type")) = false := by decide
    have k6 : (pyOf ("company") == pyOf ("company")) = true := by decide
    have k7 : (pyOf ("source") == pyOf ("content")) = false := by decide
    have k8 : (pyOf ("source") == pyOf ("document_type")) = false := by decide
    have k9 : (pyOf ("source") == pyOf ("company")) = false := by decide
    have k10 : (pyOf ("source") == pyOf ("source")) = true := by decide
    refine ⟨rfl, rfl, ?_, ?_, ?_, ?_⟩ <;>
      simp [qa_point, qa_metadata, qa_content, List.lookup, k1, k2, k3, k4, k5, k6, k7,
        k8, k9, k10, pyOf]

/-- C7 counterexample: the content of the upserted point separates the
question and answer parts by a blank line (`"\n\n"`), not by the single
newline the claim states. -/
theorem C7_counterexample :
    (qa_point (pyOf ("q")) (pyOf ("a")) (pyOf ("id-1")) ()).payload.lookup
        (pyOf ("content")) = some (pyOf ("Question: q\n\nAnswer: a")) ∧
    (qa_point (pyOf ("q")) (pyOf ("a")) (pyOf ("id-1")) ()).payload.lookup
        (pyOf ("content")) ≠ some (pyOf ("Question: q\nAnswer: a")) := by
  decide

/-- C7 witness: a successful ingestion returns true; a failing upsert returns
false. -/
theorem C7_witness :
    ingest_qa_pair (pyOf ("q")) (pyOf ("a")) (pyOf ("id-1"))
      (fun _ => Except.ok ()) (fun _ => Except.ok ()) = true ∧
    ingest_qa_pair (pyOf ("q")) (pyOf ("a")) (pyOf ("id-1"))
      (fun _ => Except.ok ()) (fun _ => Except.error (pyOf ("upsert failed"))) = false :=
  ⟨(C7_ingest_qa_pair (pyOf ("q")) (pyOf ("a")) (pyOf ("id-1"))
      (fun _ => Except.ok ()) (fun _ => Except.ok ())).2.2.2.1 ()
      (by decide) (by decide) rfl rfl,
   (C7_ingest_qa_pair (pyOf ("q")) (pyOf ("a")) (pyOf ("id-1"))
      (fun _ => Except.ok ())
      (fun _ => Except.error (pyOf ("upsert failed")))).2.2.1 ()
      (pyOf ("upsert failed")) rfl rfl⟩
